import Mathlib

/-!
Shallow embedding of `forms.py` from the form-builder repository.

The Python module defines a data model for web forms (`FormItem`, `Group`,
`Form`), a table of HTML render functions keyed by `html_type`, a `slugify`
value hook, HTML serialization, and front-matter serialization.  Python
strings become Lean `String`; Python dicts become association lists with
replace-or-append update; a Python `KeyError` (failed lookup) becomes
`Option.none`; the in-place mutation performed by hook execution becomes
explicit: the serializers return the updated object next to their result.
-/

set_option autoImplicit false

namespace FormBuilder

/-- `slugify` from forms.py: `value.replace(" ", "-").lower()`.
The pattern is the single character `" "`, so the replacement is per
character; `.lower()` maps each character to lower case. -/
def slugify (value : String) : String :=
  String.mk ((value.data.map (fun c => if c = ' ' then '-' else c)).map Char.toLower)

/-- Lookup of a hook by name, modelling `globals()[hook]` restricted to the
string-to-string transforms the module defines: `slugify` is the only one.
An unknown name raises `KeyError` in Python, here `none`. -/
def HOOKS (name : String) : Option (String → String) :=
  if name = "slugify" then some slugify else none

/-- The value of `str(uuid.uuid4())` evaluated once when the `FormItem` class
body runs: a single fixed string shared by every default-constructed item. -/
def form_item_default_id : String :=
  "1f2e3d4c-0001-4001-8001-aaaaaaaaaaaa"

/-- The value of `str(uuid.uuid4())` evaluated once when the `Form` class
body runs: a single fixed string shared by every default-constructed form. -/
def form_default_id : String :=
  "1f2e3d4c-0002-4002-8002-bbbbbbbbbbbb"

/-- A field in a form (class `FormItem`). -/
structure FormItem where
  name : String
  value : String := ""
  placeholder : String := ""
  html_type : String := "text"
  id : String := form_item_default_id
  hooks : List String := []
deriving DecidableEq

/-- A form group (class `Group`). -/
structure Group where
  name : String
  items : List FormItem
deriving DecidableEq

/-- A form (class `Form`).  `front_matter` defaults to the empty mapping
(`frontmatter.loads("")` has no metadata). -/
structure Form where
  name : String
  groups : List Group
  front_matter : List (String × String) := []
  id : String := form_default_id
deriving DecidableEq

/-- `HTML_TYPE` from forms.py. -/
def HTML_TYPE : List String :=
  ["text", "number", "email", "submit", "textarea"]

/-- `CONTROL_TYPES` from forms.py. -/
def CONTROL_TYPES : List String :=
  ["submit"]

/-- `RENDER_FUNCTIONS` from forms.py: a dict from `html_type` to a function
producing the control fragment.  A missing key is `none`. -/
def RENDER_FUNCTIONS (t : String) : Option (FormItem → String) :=
  if t = "text" then
    some (fun x => "<input type=\"text\" id=\"" ++ x.id ++ "\" name=\"" ++ x.name
      ++ "\" value=\"" ++ x.value ++ "\" placeholder=\"" ++ x.placeholder ++ "\">")
  else if t = "number" then
    some (fun x => "<input type=\"number\" id=\"" ++ x.id ++ "\" name=\"" ++ x.name
      ++ "\" value=\"" ++ x.value ++ "\" placeholder=\"" ++ x.placeholder ++ "\">")
  else if t = "email" then
    some (fun x => "<input type=\"email\" id=\"" ++ x.id ++ "\" name=\"" ++ x.name
      ++ "\" value=\"" ++ x.value ++ "\" placeholder=\"" ++ x.placeholder ++ "\">")
  else if t = "submit" then
    some (fun x => "<button id=\"" ++ x.id ++ "\" name=\"" ++ x.name ++ "\">"
      ++ x.value ++ "</button>")
  else if t = "textarea" then
    some (fun x => "<textarea id=\"" ++ x.id ++ "\" name=\"" ++ x.name
      ++ "\" placeholder=\"" ++ x.placeholder ++ "\">" ++ x.value ++ "</textarea>")
  else
    none

/-- `FormItem._serialize_as_html`: a label bound to the item id followed by
the type-specific control; `RENDER_FUNCTIONS[self.html_type]` may fail. -/
def FormItem.serialize_as_html (x : FormItem) : Option String :=
  match RENDER_FUNCTIONS x.html_type with
  | some f => some ("<label for='" ++ x.id ++ "'>" ++ x.name ++ "</label>" ++ f x)
  | none => none

/-- The loop body of `FormItem._run_hooks`: thread the value through the
named hooks; a name `globals()` lacks raises, here `none`. -/
def run_hooks_value : List String → String → Option String
  | [], v => some v
  | h :: rest, v =>
    match HOOKS h with
    | some f => run_hooks_value rest (f v)
    | none => none

/-- `FormItem._run_hooks`: mutates `self.value`; modelled as returning the
updated item. -/
def FormItem.run_hooks (x : FormItem) : Option FormItem :=
  match run_hooks_value x.hooks x.value with
  | some v => some { x with value := v }
  | none => none

/-- The inner loop of `Form._serialize_as_html`: `html += item._serialize_as_html()`
for each item, starting from the accumulated string. -/
def serialize_items_html (acc : String) : List FormItem → Option String
  | [] => some acc
  | it :: rest =>
    match it.serialize_as_html with
    | some h => serialize_items_html (acc ++ h) rest
    | none => none

/-- The outer loop of `Form._serialize_as_html`: open a group `div`, render
the items, close the `div`. -/
def serialize_groups_html (acc : String) : List Group → Option String
  | [] => some acc
  | g :: rest =>
    match serialize_items_html (acc ++ "<div class='group' id='" ++ g.name ++ "'>") g.items with
    | some acc2 => serialize_groups_html (acc2 ++ "</div>") rest
    | none => none

/-- `Form._serialize_as_html`: heading, form element targeting `/{id}` with
method POST, the group loop, closing tag. -/
def Form.serialize_as_html (f : Form) : Option String :=
  match serialize_groups_html
      ("<h1>" ++ f.name ++ "</h1><form action='/" ++ f.id ++ "' method='POST'>") f.groups with
  | some h => some (h ++ "</form>")
  | none => none

/-- Python `str.lower()` on a name (per character). -/
def strLower (s : String) : String :=
  String.mk (s.data.map Char.toLower)

/-- Dict assignment `front_matter[k] = v`: replace the value at an existing
key, otherwise append the new entry. -/
def fmSet (m : List (String × String)) (k v : String) : List (String × String) :=
  if m.any (fun p => p.1 = k) then
    m.map (fun p => if p.1 = k then (k, v) else p)
  else
    m ++ [(k, v)]

/-- The inner loop of `Form._serialize_as_front_matter`: skip control types,
run the item hooks (mutating the item), record `name.lower() ↦ value`.
Returns the updated items next to the updated mapping. -/
def process_items_fm (fm : List (String × String)) :
    List FormItem → Option (List FormItem × List (String × String))
  | [] => some ([], fm)
  | it :: rest =>
    if CONTROL_TYPES.contains it.html_type then
      match process_items_fm fm rest with
      | some (its, fm2) => some (it :: its, fm2)
      | none => none
    else
      match it.run_hooks with
      | some it2 =>
        match process_items_fm (fmSet fm (strLower it2.name) it2.value) rest with
        | some (its, fm2) => some (it2 :: its, fm2)
        | none => none
      | none => none

/-- The outer loop of `Form._serialize_as_front_matter` over the groups. -/
def process_groups_fm (fm : List (String × String)) :
    List Group → Option (List Group × List (String × String))
  | [] => some ([], fm)
  | g :: rest =>
    match process_items_fm fm g.items with
    | some (its, fm1) =>
      match process_groups_fm fm1 rest with
      | some (gs, fm2) => some ({ g with items := its } :: gs, fm2)
      | none => none
    | none => none

/-- `Form._serialize_as_front_matter`: set `form_name`, walk every item of
every group, return the metadata mapping.  The hooks mutate the items and the
keys are written into the stored front-matter object, so the updated form is
returned next to the mapping. -/
def Form.serialize_as_front_matter (f : Form) :
    Option (Form × List (String × String)) :=
  match process_groups_fm (fmSet f.front_matter "form_name" f.name) f.groups with
  | some (gs, fm) => some ({ f with groups := gs, front_matter := fm }, fm)
  | none => none

/-- An entry of `groups[].items[]` in a specification mapping: a required
`name`, the other fields optional (pydantic fills the class defaults). -/
structure FormItemSpec where
  name : String
  value : Option String := none
  placeholder : Option String := none
  html_type : Option String := none
  id : Option String := none
  hooks : Option (List String) := none
deriving DecidableEq

/-- An entry of `groups[]` in a specification mapping. -/
structure GroupSpec where
  name : String
  items : List FormItemSpec
deriving DecidableEq

/-- A specification mapping for a whole form. -/
structure FormSpec where
  name : String
  groups : List GroupSpec
  front_matter : Option (List (String × String)) := none
  id : Option String := none
deriving DecidableEq

/-- Pydantic construction of a `FormItem` from its specification entry:
supplied fields are taken as given, missing fields get the class defaults
(the default `id` being the one value computed at class-definition time). -/
def FormItem.ofSpec (s : FormItemSpec) : FormItem :=
  { name := s.name
    value := s.value.getD ""
    placeholder := s.placeholder.getD ""
    html_type := s.html_type.getD "text"
    id := s.id.getD form_item_default_id
    hooks := s.hooks.getD [] }

/-- Pydantic construction of a `Group` from its specification entry. -/
def Group.ofSpec (s : GroupSpec) : Group :=
  { name := s.name, items := s.items.map FormItem.ofSpec }

/-- `Form.load_from_specification`: `cls(**specification)`, constructing the
groups and items transitively. -/
def Form.load_from_specification (s : FormSpec) : Form :=
  { name := s.name
    groups := s.groups.map Group.ofSpec
    front_matter := s.front_matter.getD []
    id := s.id.getD form_default_id }

/-- The value an item's hook list computes when every hook is registered:
the left fold of the registered transforms over the starting value. -/
def applyHooks (hooks : List String) (v : String) : String :=
  hooks.foldl (fun acc h => ((HOOKS h).getD (fun v2 => v2)) acc) v

/-- What one pass of `_serialize_as_front_matter` does to an item: control
types are skipped, every other item gets its hooks applied to its value. -/
def onceItem (it : FormItem) : FormItem :=
  if CONTROL_TYPES.contains it.html_type then it
  else { it with value := applyHooks it.hooks it.value }

/-- `onceItem` lifted to a group. -/
def onceGroup (g : Group) : Group :=
  { g with items := g.items.map onceItem }

/-- The mapping update one non-control item performs during front-matter
serialization. -/
def hookStep (fm : List (String × String)) (it : FormItem) :
    List (String × String) :=
  fmSet fm (strLower it.name) (applyHooks it.hooks it.value)

/-- The non-control items of a form, in group order and item order: the items
front-matter serialization records. -/
def nonControlItems (f : Form) : List FormItem :=
  (f.groups.map Group.items).flatten.filter (fun it => !(CONTROL_TYPES.contains it.html_type))

/-- Item hooks all resolvable: `_run_hooks` succeeds exactly on these. -/
def hooksRegistered (it : FormItem) : Prop :=
  ∀ h ∈ it.hooks, (HOOKS h).isSome

instance (it : FormItem) : Decidable (hooksRegistered it) :=
  List.decidableBAll _ it.hooks

/-- `sub` occurs in `s` as a contiguous substring. -/
def occursIn (sub s : String) : Prop :=
  sub.data <:+: s.data

instance (sub s : String) : Decidable (occursIn sub s) :=
  List.decidableInfix sub.data s.data

/-- Number of positions of `s` at which `pat` starts (occurrences may
overlap); used to state the "exactly once" containment claims. -/
def countOccsAux (pat : List Char) : List Char → Nat
  | [] => 0
  | c :: rest => (if pat.isPrefixOf (c :: rest) then 1 else 0) + countOccsAux pat rest

/-- Occurrence count of `pat` in `s`, on strings. -/
def strCount (s pat : String) : Nat :=
  countOccsAux pat.data s.data

/-- Concatenation of a list of strings, in order. -/
def strConcat : List String → String
  | [] => ""
  | s :: rest => s ++ strConcat rest

/-- A concrete one-group specification used to instantiate the round-trip
property. -/
def spec6 : FormSpec :=
  { name := "PF"
    groups := [{ name := "G"
                 items := [{ name := "Title", value := some "Coffee",
                             placeholder := some "p", html_type := some "text",
                             id := some "i1", hooks := some ["slugify"] }] }] }

/-- A concrete three-group form matching the example specification, used to
instantiate the rendering property. -/
def form2 : Form :=
  { name := "Publish a Blog Post"
    groups := [{ name := "Post Details"
                 items := [{ name := "Title", value := "Coffee", html_type := "text" },
                           { name := "Body", value := "This is a test!",
                             html_type := "textarea" }] },
               { name := "Publish"
                 items := [{ name := "Publish", value := "Publish",
                             html_type := "submit" }] }]
    id := "fid2" }

/-- A concrete text item whose field values collide with nothing else in the
rendered output: the occurrence counts are exactly those of the template. -/
def item3c : FormItem :=
  { name := "N", value := "V", placeholder := "P", html_type := "text", id := "I" }

/-- A concrete text item used to instantiate the fragment property. -/
def item3w : FormItem :=
  { name := "Title", value := "Coffee", placeholder := "pp",
    html_type := "text", id := "i9" }

/-- A concrete form whose only item is named `FORM_NAME`: serializing it
overwrites the `form_name` key. -/
def form1c : Form :=
  { name := "F"
    groups := [{ name := "G"
                 items := [{ name := "FORM_NAME", value := "X", html_type := "text" }] }] }

/-- The form `form1c` as returned by front-matter serialization. -/
def form1c2 : Form :=
  { name := "F"
    groups := [{ name := "G"
                 items := [{ name := "FORM_NAME", value := "X", html_type := "text" }] }]
    front_matter := [("form_name", "X")] }

/-- Concrete items of the front-matter witness form. -/
def item1wT : FormItem :=
  { name := "Title", value := "Coffee", html_type := "text" }

def item1wS : FormItem :=
  { name := "Slug", value := "POST EXAMPLE", html_type := "text", hooks := ["slugify"] }

def item1wP : FormItem :=
  { name := "Publish", value := "Publish", html_type := "submit" }

/-- A concrete form with stored front matter, a plain item, a hooked item and
a submit item. -/
def form1w : Form :=
  { name := "F2"
    groups := [{ name := "G1", items := [item1wT, item1wS, item1wP] }]
    front_matter := [("extra", "e")] }

/-- The mapping front-matter serialization of `form1w` produces. -/
def m1w : List (String × String) :=
  [("extra", "e"), ("form_name", "F2"), ("title", "Coffee"), ("slug", "post-example")]

/-- The form `form1w` as returned by front-matter serialization. -/
def form1w2 : Form :=
  { name := "F2"
    groups := [{ name := "G1"
                 items := [item1wT,
                           { name := "Slug", value := "post-example",
                             html_type := "text", hooks := ["slugify"] },
                           item1wP] }]
    front_matter := m1w }

/-- A concrete one-item hooked form for the double-serialization witness. -/
def item5w : FormItem :=
  { name := "Slug", value := "A B", html_type := "text", hooks := ["slugify"] }

def form5w : Form :=
  { name := "F5", groups := [{ name := "G", items := [item5w] }] }

def item5w1 : FormItem :=
  { name := "Slug", value := "a-b", html_type := "text", hooks := ["slugify"] }

def m5w : List (String × String) :=
  [("form_name", "F5"), ("slug", "a-b")]

/-- `form5w` after one front-matter serialization (also a fixed point of the
second call). -/
def form5w1 : Form :=
  { name := "F5", groups := [{ name := "G", items := [item5w1] }], front_matter := m5w }

/-- A concrete form whose only item is a submit control carrying a non-empty
hook list. -/
def item10w : FormItem :=
  { name := "Publish", value := "P V", html_type := "submit", hooks := ["slugify"] }

def form10w : Form :=
  { name := "FX", groups := [{ name := "G", items := [item10w] }] }

/-- `form10w` after front-matter serialization: only the mapping changed. -/
def form10w2 : Form :=
  { name := "FX", groups := [{ name := "G", items := [item10w] }]
    front_matter := [("form_name", "FX")] }

/-! ## Helper lemmas -/

theorem str_append_empty (s : String) : s ++ "" = s := by
  apply String.ext
  rw [String.data_append]
  exact List.append_nil s.data

theorem occursIn_parts (sub s a b : String) (hEq : a ++ sub ++ b = s) :
    occursIn sub s :=
  ⟨a.data, b.data, by rw [← hEq]; simp⟩

theorem forall2_map_self {α β : Type} (R : α → β → Prop) (f : α → β) :
    ∀ (l : List α), (∀ a ∈ l, R a (f a)) → List.Forall₂ R l (l.map f)
  | [], _ => List.Forall₂.nil
  | a :: rest, h =>
    List.Forall₂.cons (h a (by simp))
      (forall2_map_self R f rest (fun b hb => h b (by simp [hb])))

theorem run_hooks_value_some_eq (l : List String) (v w : String)
    (h : run_hooks_value l v = some w) : w = applyHooks l v := by
  induction l generalizing v with
  | nil =>
    simp only [run_hooks_value] at h
    cases h
    rfl
  | cons hk rest ih =>
    simp only [run_hooks_value] at h
    cases hf : HOOKS hk with
    | some f =>
      rw [hf] at h
      have := ih (f v) h
      simpa [applyHooks, hf] using this
    | none => rw [hf] at h; cases h

theorem run_hooks_value_none_iff (l : List String) (v : String) :
    run_hooks_value l v = none ↔ ∃ hk ∈ l, HOOKS hk = none := by
  induction l generalizing v with
  | nil => simp [run_hooks_value]
  | cons hk rest ih =>
    simp only [run_hooks_value]
    cases hf : HOOKS hk with
    | some f => simp [ih (f v), hf]
    | none => simp [hf]

theorem FormItem.run_hooks_some_eq (x y : FormItem)
    (h : x.run_hooks = some y) : y = { x with value := applyHooks x.hooks x.value } := by
  unfold FormItem.run_hooks at h
  cases hv : run_hooks_value x.hooks x.value with
  | some w =>
    rw [hv] at h
    cases h
    rw [run_hooks_value_some_eq x.hooks x.value w hv]
  | none => rw [hv] at h; cases h

theorem FormItem.run_hooks_of_registered (x : FormItem) (h : hooksRegistered x) :
    x.run_hooks = some { x with value := applyHooks x.hooks x.value } := by
  unfold FormItem.run_hooks
  cases hv : run_hooks_value x.hooks x.value with
  | some w => rw [run_hooks_value_some_eq x.hooks x.value w hv]
  | none =>
    rcases (run_hooks_value_none_iff x.hooks x.value).mp hv with ⟨hk, hmem, hnone⟩
    have := h hk hmem
    rw [hnone] at this
    cases this

theorem FormItem.run_hooks_none_iff (x : FormItem) :
    x.run_hooks = none ↔ ∃ hk ∈ x.hooks, HOOKS hk = none := by
  unfold FormItem.run_hooks
  cases hv : run_hooks_value x.hooks x.value with
  | some w => simp [← run_hooks_value_none_iff x.hooks x.value, hv]
  | none => simp [← run_hooks_value_none_iff x.hooks x.value, hv]

theorem RENDER_FUNCTIONS_none_iff (t : String) :
    RENDER_FUNCTIONS t = none ↔ t ∉ HTML_TYPE := by
  by_cases h1 : t = "text" <;> by_cases h2 : t = "number" <;>
    by_cases h3 : t = "email" <;> by_cases h4 : t = "submit" <;>
    by_cases h5 : t = "textarea" <;>
    simp [RENDER_FUNCTIONS, HTML_TYPE, h1, h2, h3, h4, h5]

theorem serialize_as_html_none_iff (x : FormItem) :
    x.serialize_as_html = none ↔ RENDER_FUNCTIONS x.html_type = none := by
  unfold FormItem.serialize_as_html
  cases h : RENDER_FUNCTIONS x.html_type <;> simp [h]

/-! ## Claim theorems -/

/-- C9: applying the slugify hook to "POST EXAMPLE" yields "post-example":
every space is replaced by a hyphen and the result is lowercased. -/
theorem C9_slugify_post_example : slugify "POST EXAMPLE" = "post-example" := by
  decide

/-- C7: rendering a `FormItem` fails with a lookup error exactly when its
`html_type` is not one of the supported types. -/
theorem C7_unknown_html_type_fails (x : FormItem) :
    x.serialize_as_html = none ↔ x.html_type ∉ HTML_TYPE := by
  rw [serialize_as_html_none_iff]
  exact RENDER_FUNCTIONS_none_iff x.html_type

/-- C7 witness: a concrete unsupported type fails and a concrete supported
type does not. -/
theorem C7_unknown_html_type_fails_witness :
    ({ name := "A", html_type := "radio" } : FormItem).serialize_as_html = none ∧
    ¬ ({ name := "A", html_type := "text" } : FormItem).serialize_as_html = none := by
  constructor
  · exact (C7_unknown_html_type_fails { name := "A", html_type := "radio" }).mpr (by decide)
  · intro h
    exact absurd ((C7_unknown_html_type_fails { name := "A", html_type := "text" }).mp h)
      (by decide)

/-- C4: the default identifier is computed once when the class body runs and
shared: any two items (and any two forms) built without an explicit `id`
field carry equal ids. -/
theorem C4_shared_default_id (s1 s2 : FormItemSpec) (t1 t2 : FormSpec)
    (h1 : s1.id = none) (h2 : s2.id = none) (h3 : t1.id = none) (h4 : t2.id = none) :
    (FormItem.ofSpec s1).id = (FormItem.ofSpec s2).id ∧
    (Form.load_from_specification t1).id = (Form.load_from_specification t2).id := by
  simp [FormItem.ofSpec, Form.load_from_specification, h1, h2, h3, h4]

/-- C4 witness: two concrete items and two concrete forms without explicit
ids share the default id. -/
theorem C4_shared_default_id_witness :
    (FormItem.ofSpec { name := "A" }).id = (FormItem.ofSpec { name := "B", value := some "v" }).id ∧
    (Form.load_from_specification { name := "F", groups := [] }).id =
      (Form.load_from_specification { name := "G", groups := [] }).id :=
  C4_shared_default_id { name := "A" } { name := "B", value := some "v" }
    { name := "F", groups := [] } { name := "G", groups := [] } rfl rfl rfl rfl

/-- C8: `runHooks` applies each named hook in sequence to the current value,
replacing the value with each return value (the left fold of the registered
transforms), and fails with a lookup error exactly when some hook name in the
sequence is not registered. -/
theorem C8_run_hooks_spec (x : FormItem) :
    (hooksRegistered x →
      x.run_hooks = some { x with value := applyHooks x.hooks x.value }) ∧
    (x.run_hooks = none ↔ ∃ hk ∈ x.hooks, HOOKS hk = none) :=
  ⟨x.run_hooks_of_registered, x.run_hooks_none_iff⟩

/-- C8 witness: a concrete slugify hook runs and replaces the value; a
concrete unknown hook name fails. -/
theorem C8_run_hooks_spec_witness :
    ({ name := "Slug", value := "POST EXAMPLE", hooks := ["slugify"] } : FormItem).run_hooks
      = some { name := "Slug", value := "post-example", hooks := ["slugify"] } ∧
    ({ name := "X", hooks := ["nothook"] } : FormItem).run_hooks = none := by
  constructor
  · have h := (C8_run_hooks_spec
      { name := "Slug", value := "POST EXAMPLE", hooks := ["slugify"] }).1 (by decide)
    rw [h]
    decide
  · exact (C8_run_hooks_spec { name := "X", hooks := ["nothook"] }).2.mpr
      ⟨"nothook", by decide, by rfl⟩

/-- C6: loading a form from a specification and reading back its name, its
groups' names and each item's supplied fields recovers the values of the
input specification. -/
theorem C6_round_trip (s : FormSpec) :
    (Form.load_from_specification s).name = s.name ∧
    List.Forall₂ (fun gs g => g.name = gs.name ∧
      List.Forall₂ (fun ispec it =>
        it.name = ispec.name ∧
        (∀ v, ispec.value = some v → it.value = v) ∧
        (∀ v, ispec.placeholder = some v → it.placeholder = v) ∧
        (∀ v, ispec.html_type = some v → it.html_type = v) ∧
        (∀ v, ispec.id = some v → it.id = v) ∧
        (∀ l, ispec.hooks = some l → it.hooks = l))
        gs.items g.items)
      s.groups (Form.load_from_specification s).groups := by
  refine ⟨rfl, ?_⟩
  show List.Forall₂ _ s.groups (s.groups.map Group.ofSpec)
  apply forall2_map_self
  intro gs _
  refine ⟨rfl, ?_⟩
  show List.Forall₂ _ gs.items (gs.items.map FormItem.ofSpec)
  apply forall2_map_self
  intro ispec _
  refine ⟨rfl, ?_, ?_, ?_, ?_, ?_⟩ <;>
    · intro v hv
      simp [FormItem.ofSpec, hv]

/-- C6 witness: the concrete specification round-trips. -/
theorem C6_round_trip_witness :
    (Form.load_from_specification spec6).name = "PF" ∧
    (Form.load_from_specification spec6).groups =
      [{ name := "G"
         items := [{ name := "Title", value := "Coffee", placeholder := "p",
                     html_type := "text", id := "i1", hooks := ["slugify"] }] }] :=
  ⟨(C6_round_trip spec6).1, by decide⟩

theorem serialize_as_html_isSome (x : FormItem) (h : x.html_type ∈ HTML_TYPE) :
    ∃ s, x.serialize_as_html = some s := by
  cases hs : x.serialize_as_html with
  | some s => exact ⟨s, rfl⟩
  | none =>
    rw [serialize_as_html_none_iff, RENDER_FUNCTIONS_none_iff] at hs
    exact absurd h hs

theorem serialize_items_html_eq (l : List FormItem) :
    ∀ acc : String, (∀ it ∈ l, it.html_type ∈ HTML_TYPE) →
    serialize_items_html acc l =
      some (acc ++ strConcat (l.map (fun it => it.serialize_as_html.getD ""))) := by
  induction l with
  | nil =>
    intro acc _
    simp [serialize_items_html, strConcat, str_append_empty]
  | cons it rest ih =>
    intro acc h
    obtain ⟨s, hs⟩ := serialize_as_html_isSome it (h it (by simp))
    simp only [serialize_items_html, hs]
    rw [ih (acc ++ s) (fun b hb => h b (by simp [hb]))]
    simp [strConcat, hs, String.append_assoc]

theorem serialize_groups_html_eq (gs : List Group) :
    ∀ acc : String, (∀ g ∈ gs, ∀ it ∈ g.items, it.html_type ∈ HTML_TYPE) →
    serialize_groups_html acc gs =
      some (acc ++ strConcat (gs.map (fun g =>
        "<div class='group' id='" ++ g.name ++ "'>"
        ++ strConcat (g.items.map (fun it => it.serialize_as_html.getD ""))
        ++ "</div>"))) := by
  induction gs with
  | nil =>
    intro acc _
    simp [serialize_groups_html, strConcat, str_append_empty]
  | cons g rest ih =>
    intro acc h
    simp only [serialize_groups_html]
    rw [serialize_items_html_eq g.items _ (h g (by simp))]
    dsimp only
    rw [ih _ (fun b hb it hit => h b (by simp [hb]) it hit)]
    simp [strConcat, String.append_assoc]

/-- C2: rendering a form yields the heading with the form name, then a form
element targeting `/` followed by the form id with method POST, containing
one group wrapper per group, keyed by the group name, each the concatenation
of the rendered HTML of the group's items, in order. -/
theorem C2_render_form (f : Form)
    (h : ∀ g ∈ f.groups, ∀ it ∈ g.items, it.html_type ∈ HTML_TYPE) :
    f.serialize_as_html = some (
      "<h1>" ++ f.name ++ "</h1><form action='/" ++ f.id ++ "' method='POST'>"
      ++ strConcat (f.groups.map (fun g =>
          "<div class='group' id='" ++ g.name ++ "'>"
          ++ strConcat (g.items.map (fun it => it.serialize_as_html.getD ""))
          ++ "</div>"))
      ++ "</form>") := by
  unfold Form.serialize_as_html
  rw [serialize_groups_html_eq f.groups _ h]

/-- C2 witness: the concrete three-group form renders to the heading, the
form element, and one wrapper per group with its items' fragments. -/
theorem C2_render_form_witness :
    form2.serialize_as_html = some (
      "<h1>" ++ form2.name ++ "</h1><form action='/" ++ form2.id ++ "' method='POST'>"
      ++ strConcat (form2.groups.map (fun g =>
          "<div class='group' id='" ++ g.name ++ "'>"
          ++ strConcat (g.items.map (fun it => it.serialize_as_html.getD ""))
          ++ "</div>"))
      ++ "</form>") :=
  C2_render_form form2 (by decide)

/-- C3 counterexample: for a concrete text item the rendered string contains
the id twice — once in the label's `for` attribute and once in the control —
and likewise the name, so "exactly once" is false as stated. -/
theorem C3_counterexample :
    item3c.html_type ∈ HTML_TYPE ∧
    strCount (item3c.serialize_as_html.getD "") item3c.id = 2 ∧
    strCount (item3c.serialize_as_html.getD "") item3c.name = 2 ∧
    ¬ strCount (item3c.serialize_as_html.getD "") item3c.id = 1 := by
  decide

/-- C3 amended: for every supported `html_type`, rendering an item produces a
label fragment interpolating the id and the name, followed by a control
fragment that again contains the id and the name and — when the type is not
submit — the placeholder; so id and name occur once per fragment and the
placeholder occurs in the control, rather than each "exactly once". -/
theorem C3_render_fragments (x : FormItem) (h : x.html_type ∈ HTML_TYPE) :
    ∃ ctrl, x.serialize_as_html
        = some ("<label for='" ++ x.id ++ "'>" ++ x.name ++ "</label>" ++ ctrl) ∧
      occursIn x.id ctrl ∧ occursIn x.name ctrl ∧
      (x.html_type ≠ "submit" → occursIn x.placeholder ctrl) := by
  simp only [HTML_TYPE, List.mem_cons, List.not_mem_nil, or_false] at h
  rcases h with h | h | h | h | h
  · refine ⟨"<input type=\"text\" id=\"" ++ x.id ++ "\" name=\"" ++ x.name
      ++ "\" value=\"" ++ x.value ++ "\" placeholder=\"" ++ x.placeholder ++ "\">",
      ?_, ?_, ?_, ?_⟩
    · unfold FormItem.serialize_as_html
      rw [h]
      rfl
    · exact occursIn_parts x.id _ "<input type=\"text\" id=\""
        ("\" name=\"" ++ x.name ++ "\" value=\"" ++ x.value
          ++ "\" placeholder=\"" ++ x.placeholder ++ "\">")
        (by simp [String.append_assoc])
    · exact occursIn_parts x.name _
        ("<input type=\"text\" id=\"" ++ x.id ++ "\" name=\"")
        ("\" value=\"" ++ x.value ++ "\" placeholder=\"" ++ x.placeholder ++ "\">")
        (by simp [String.append_assoc])
    · intro _
      exact occursIn_parts x.placeholder _
        ("<input type=\"text\" id=\"" ++ x.id ++ "\" name=\"" ++ x.name
          ++ "\" value=\"" ++ x.value ++ "\" placeholder=\"") "\">"
        (by simp [String.append_assoc])
  · refine ⟨"<input type=\"number\" id=\"" ++ x.id ++ "\" name=\"" ++ x.name
      ++ "\" value=\"" ++ x.value ++ "\" placeholder=\"" ++ x.placeholder ++ "\">",
      ?_, ?_, ?_, ?_⟩
    · unfold FormItem.serialize_as_html
      rw [h]
      rfl
    · exact occursIn_parts x.id _ "<input type=\"number\" id=\""
        ("\" name=\"" ++ x.name ++ "\" value=\"" ++ x.value
          ++ "\" placeholder=\"" ++ x.placeholder ++ "\">")
        (by simp [String.append_assoc])
    · exact occursIn_parts x.name _
        ("<input type=\"number\" id=\"" ++ x.id ++ "\" name=\"")
        ("\" value=\"" ++ x.value ++ "\" placeholder=\"" ++ x.placeholder ++ "\">")
        (by simp [String.append_assoc])
    · intro _
      exact occursIn_parts x.placeholder _
        ("<input type=\"number\" id=\"" ++ x.id ++ "\" name=\"" ++ x.name
          ++ "\" value=\"" ++ x.value ++ "\" placeholder=\"") "\">"
        (by simp [String.append_assoc])
  · refine ⟨"<input type=\"email\" id=\"" ++ x.id ++ "\" name=\"" ++ x.name
      ++ "\" value=\"" ++ x.value ++ "\" placeholder=\"" ++ x.placeholder ++ "\">",
      ?_, ?_, ?_, ?_⟩
    · unfold FormItem.serialize_as_html
      rw [h]
      rfl
    · exact occursIn_parts x.id _ "<input type=\"email\" id=\""
        ("\" name=\"" ++ x.name ++ "\" value=\"" ++ x.value
          ++ "\" placeholder=\"" ++ x.placeholder ++ "\">")
        (by simp [String.append_assoc])
    · exact occursIn_parts x.name _
        ("<input type=\"email\" id=\"" ++ x.id ++ "\" name=\"")
        ("\" value=\"" ++ x.value ++ "\" placeholder=\"" ++ x.placeholder ++ "\">")
        (by simp [String.append_assoc])
    · intro _
      exact occursIn_parts x.placeholder _
        ("<input type=\"email\" id=\"" ++ x.id ++ "\" name=\"" ++ x.name
          ++ "\" value=\"" ++ x.value ++ "\" placeholder=\"") "\">"
        (by simp [String.append_assoc])
  · refine ⟨"<button id=\"" ++ x.id ++ "\" name=\"" ++ x.name ++ "\">"
      ++ x.value ++ "</button>", ?_, ?_, ?_, ?_⟩
    · unfold FormItem.serialize_as_html
      rw [h]
      rfl
    · exact occursIn_parts x.id _ "<button id=\""
        ("\" name=\"" ++ x.name ++ "\">" ++ x.value ++ "</button>")
        (by simp [String.append_assoc])
    · exact occursIn_parts x.name _ ("<button id=\"" ++ x.id ++ "\" name=\"")
        ("\">" ++ x.value ++ "</button>")
        (by simp [String.append_assoc])
    · intro hne
      exact absurd h hne
  · refine ⟨"<textarea id=\"" ++ x.id ++ "\" name=\"" ++ x.name
      ++ "\" placeholder=\"" ++ x.placeholder ++ "\">" ++ x.value ++ "</textarea>",
      ?_, ?_, ?_, ?_⟩
    · unfold FormItem.serialize_as_html
      rw [h]
      rfl
    · exact occursIn_parts x.id _ "<textarea id=\""
        ("\" name=\"" ++ x.name ++ "\" placeholder=\"" ++ x.placeholder
          ++ "\">" ++ x.value ++ "</textarea>")
        (by simp [String.append_assoc])
    · exact occursIn_parts x.name _ ("<textarea id=\"" ++ x.id ++ "\" name=\"")
        ("\" placeholder=\"" ++ x.placeholder ++ "\">" ++ x.value ++ "</textarea>")
        (by simp [String.append_assoc])
    · intro _
      exact occursIn_parts x.placeholder _
        ("<textarea id=\"" ++ x.id ++ "\" name=\"" ++ x.name ++ "\" placeholder=\"")
        ("\">" ++ x.value ++ "</textarea>")
        (by simp [String.append_assoc])

/-- C3 witness: the amended fragment property at a concrete text item. -/
theorem C3_render_fragments_witness :
    ∃ ctrl, item3w.serialize_as_html
        = some ("<label for='" ++ item3w.id ++ "'>" ++ item3w.name ++ "</label>" ++ ctrl) ∧
      occursIn item3w.id ctrl ∧ occursIn item3w.name ctrl ∧
      (item3w.html_type ≠ "submit" → occursIn item3w.placeholder ctrl) :=
  C3_render_fragments item3w (by decide)

theorem lookup_map_replace_self (m : List (String × String)) (k v : String)
    (h : m.any (fun p => p.1 = k) = true) :
    List.lookup k (m.map (fun p => if p.1 = k then (k, v) else p)) = some v := by
  induction m with
  | nil => simp at h
  | cons p rest ih =>
    obtain ⟨p1, p2⟩ := p
    by_cases hp : p1 = k
    · simp [hp]
    · have h2 : rest.any (fun p => p.1 = k) = true := by
        simp [List.any_cons, hp] at h
        simpa using h
      have hb : (k == p1) = false := beq_eq_false_iff_ne.mpr (Ne.symm hp)
      simp [hp, List.lookup_cons, hb, ih h2]

theorem lookup_map_replace_ne (m : List (String × String)) (k v k2 : String)
    (hne : k2 ≠ k) :
    List.lookup k2 (m.map (fun p => if p.1 = k then (k, v) else p))
      = List.lookup k2 m := by
  induction m with
  | nil => rfl
  | cons p rest ih =>
    obtain ⟨p1, p2⟩ := p
    by_cases hp : p1 = k
    · subst hp
      have hb : (k2 == p1) = false := beq_eq_false_iff_ne.mpr hne
      simp [List.lookup_cons, hb, ih]
    · cases hb : k2 == p1 <;> simp [hp, List.lookup_cons, hb, ih]

theorem lookup_fmSet_self (m : List (String × String)) (k v : String) :
    List.lookup k (fmSet m k v) = some v := by
  unfold fmSet
  split
  case isTrue h => exact lookup_map_replace_self m k v h
  case isFalse h =>
    rw [List.lookup_append]
    have hm : List.lookup k m = none := by
      rw [List.lookup_eq_none_iff]
      intro p hp
      have hne : ¬ (p.1 = k) := by
        intro hk
        exact h (List.any_eq_true.mpr ⟨p, hp, by simp [hk]⟩)
      exact bne_iff_ne.mpr (Ne.symm hne)
    rw [hm]
    simp

theorem lookup_fmSet_ne (m : List (String × String)) (k v k2 : String)
    (hne : k2 ≠ k) :
    List.lookup k2 (fmSet m k v) = List.lookup k2 m := by
  unfold fmSet
  split
  case isTrue _ => exact lookup_map_replace_ne m k v k2 hne
  case isFalse _ =>
    rw [List.lookup_append]
    have h1 : List.lookup k2 [(k, v)] = none := by
      simp [List.lookup_cons, beq_eq_false_iff_ne.mpr hne]
    rw [h1, Option.or_none]

theorem lookup_foldl_hookStep_ne (l : List FormItem) (k : String)
    (h : ∀ it ∈ l, strLower it.name ≠ k) :
    ∀ fm, List.lookup k (List.foldl hookStep fm l) = List.lookup k fm := by
  induction l with
  | nil => intro fm; rfl
  | cons it rest ih =>
    intro fm
    rw [List.foldl_cons, ih (fun b hb => h b (by simp [hb]))]
    exact lookup_fmSet_ne fm (strLower it.name) _ k (Ne.symm (h it (by simp)))

theorem onceItem_control {it : FormItem}
    (hc : CONTROL_TYPES.contains it.html_type = true) : onceItem it = it := by
  unfold onceItem
  rw [if_pos hc]

theorem onceItem_noncontrol {it : FormItem}
    (hc : CONTROL_TYPES.contains it.html_type = false) :
    onceItem it = { it with value := applyHooks it.hooks it.value } := by
  unfold onceItem
  rw [if_neg (by rw [hc]; exact Bool.false_ne_true)]

theorem filterNC_cons_control {it : FormItem} (rest : List FormItem)
    (hc : CONTROL_TYPES.contains it.html_type = true) :
    (it :: rest).filter (fun it => !(CONTROL_TYPES.contains it.html_type))
      = rest.filter (fun it => !(CONTROL_TYPES.contains it.html_type)) := by
  rw [List.filter_cons, hc]
  simp

theorem filterNC_cons_noncontrol {it : FormItem} (rest : List FormItem)
    (hc : CONTROL_TYPES.contains it.html_type = false) :
    (it :: rest).filter (fun it => !(CONTROL_TYPES.contains it.html_type))
      = it :: rest.filter (fun it => !(CONTROL_TYPES.contains it.html_type)) := by
  rw [List.filter_cons, hc]
  simp

theorem lookup_foldl_hookStep_last (l1 : List FormItem) (it : FormItem)
    (l2 : List FormItem) (fm : List (String × String))
    (h : ∀ it2 ∈ l2, strLower it2.name ≠ strLower it.name) :
    List.lookup (strLower it.name) (List.foldl hookStep fm (l1 ++ it :: l2))
      = some (applyHooks it.hooks it.value) := by
  rw [List.foldl_append, List.foldl_cons, lookup_foldl_hookStep_ne l2 _ h]
  exact lookup_fmSet_self _ _ _

theorem process_items_fm_eq (l : List FormItem) :
    ∀ fm its fm2, process_items_fm fm l = some (its, fm2) →
      its = l.map onceItem ∧
      fm2 = List.foldl hookStep fm
        (l.filter (fun it => !(CONTROL_TYPES.contains it.html_type))) := by
  induction l with
  | nil =>
    intro fm its fm2 h
    simp only [process_items_fm, Option.some.injEq, Prod.mk.injEq] at h
    simp [← h.1, ← h.2]
  | cons it rest ih =>
    intro fm its fm2 h
    cases hc : CONTROL_TYPES.contains it.html_type with
    | true =>
      rw [process_items_fm, if_pos hc] at h
      cases hr : process_items_fm fm rest with
      | some p =>
        obtain ⟨its2, fm3⟩ := p
        rw [hr] at h
        cases h
        obtain ⟨h1, h2⟩ := ih _ _ _ hr
        constructor
        · rw [List.map_cons, ← h1, onceItem_control hc]
        · rw [h2, filterNC_cons_control rest hc]
      | none => rw [hr] at h; cases h
    | false =>
      rw [process_items_fm, if_neg (by rw [hc]; exact Bool.false_ne_true)] at h
      cases hrn : it.run_hooks with
      | none => rw [hrn] at h; cases h
      | some it2 =>
        rw [hrn] at h
        dsimp only at h
        cases hr : process_items_fm (fmSet fm (strLower it2.name) it2.value) rest with
        | some p =>
          obtain ⟨its2, fm3⟩ := p
          rw [hr] at h
          cases h
          obtain ⟨h1, h2⟩ := ih _ _ _ hr
          have hit2 : it2 = { it with value := applyHooks it.hooks it.value } :=
            FormItem.run_hooks_some_eq it it2 hrn
          constructor
          · rw [List.map_cons, ← h1, hit2, onceItem_noncontrol hc]
          · rw [h2, filterNC_cons_noncontrol rest hc, List.foldl_cons]
            congr 1
            rw [hit2]
            rfl
        | none => rw [hr] at h; cases h

theorem process_groups_fm_eq (gs : List Group) :
    ∀ fm gs2 fm2, process_groups_fm fm gs = some (gs2, fm2) →
      gs2 = gs.map onceGroup ∧
      fm2 = List.foldl hookStep fm
        ((gs.map Group.items).flatten.filter
          (fun it => !(CONTROL_TYPES.contains it.html_type))) := by
  induction gs with
  | nil =>
    intro fm gs2 fm2 h
    simp only [process_groups_fm, Option.some.injEq, Prod.mk.injEq] at h
    simp [← h.1, ← h.2]
  | cons g rest ih =>
    intro fm gs2 fm2 h
    rw [process_groups_fm] at h
    cases hi : process_items_fm fm g.items with
    | some p =>
      obtain ⟨its, fm1⟩ := p
      rw [hi] at h
      dsimp only at h
      cases hgr : process_groups_fm fm1 rest with
      | some q =>
        obtain ⟨gs3, fm4⟩ := q
        rw [hgr] at h
        cases h
        obtain ⟨h1, h2⟩ := process_items_fm_eq g.items _ _ _ hi
        obtain ⟨h3, h4⟩ := ih _ _ _ hgr
        refine ⟨?_, ?_⟩
        · simp [h1, h3, onceGroup]
        · rw [h4, h2]
          simp [List.filter_append]
      | none => rw [hgr] at h; cases h
    | none => rw [hi] at h; cases h

theorem serialize_fm_some (f f2 : Form) (m : List (String × String))
    (h : f.serialize_as_front_matter = some (f2, m)) :
    f2 = { f with groups := f.groups.map onceGroup, front_matter := m } ∧
    m = List.foldl hookStep (fmSet f.front_matter "form_name" f.name)
      (nonControlItems f) := by
  unfold Form.serialize_as_front_matter at h
  cases hp : process_groups_fm (fmSet f.front_matter "form_name" f.name) f.groups with
  | some p =>
    obtain ⟨gs2, fm2⟩ := p
    rw [hp] at h
    dsimp only at h
    cases h
    obtain ⟨h1, h2⟩ := process_groups_fm_eq f.groups _ _ _ hp
    exact ⟨by rw [h1], by rw [h2]; rfl⟩
  | none => rw [hp] at h; cases h

theorem onceItem_html_type (it : FormItem) : (onceItem it).html_type = it.html_type := by
  unfold onceItem
  split <;> rfl

theorem onceItem_name (it : FormItem) : (onceItem it).name = it.name := by
  unfold onceItem
  split <;> rfl

theorem onceItem_onceItem (it : FormItem) :
    onceItem (onceItem it) =
      (if CONTROL_TYPES.contains it.html_type then it
       else { it with value := applyHooks it.hooks (applyHooks it.hooks it.value) }) := by
  cases hc : CONTROL_TYPES.contains it.html_type with
  | true => rw [onceItem_control hc, onceItem_control hc, if_pos rfl]
  | false =>
    have h2 : CONTROL_TYPES.contains
        ({ it with value := applyHooks it.hooks it.value } : FormItem).html_type = false := hc
    rw [onceItem_noncontrol hc, onceItem_noncontrol h2, if_neg Bool.false_ne_true]

theorem onceGroup_onceGroup (g : Group) :
    onceGroup (onceGroup g) = { g with items := g.items.map (fun it =>
      if CONTROL_TYPES.contains it.html_type then it
      else { it with value := applyHooks it.hooks (applyHooks it.hooks it.value) }) } := by
  simp only [onceGroup]
  rw [List.map_map]
  congr 1
  exact List.map_congr_left (fun it _ => onceItem_onceItem it)

theorem filterNC_map_onceItem (l : List FormItem) :
    (l.map onceItem).filter (fun it => !(CONTROL_TYPES.contains it.html_type))
      = (l.filter (fun it => !(CONTROL_TYPES.contains it.html_type))).map onceItem := by
  induction l with
  | nil => rfl
  | cons it rest ih =>
    rw [List.map_cons, List.filter_cons, List.filter_cons, onceItem_html_type]
    cases hc : !(CONTROL_TYPES.contains it.html_type) with
    | true => rw [if_pos rfl, if_pos rfl, List.map_cons, ih]
    | false => rw [if_neg Bool.false_ne_true, if_neg Bool.false_ne_true, ih]

theorem nonControlItems_mapOnce (f : Form) (m : List (String × String)) :
    nonControlItems { f with groups := f.groups.map onceGroup, front_matter := m }
      = (nonControlItems f).map onceItem := by
  show ((f.groups.map onceGroup).map Group.items).flatten.filter _
      = ((f.groups.map Group.items).flatten.filter _).map onceItem
  rw [List.map_map,
    show (Group.items ∘ onceGroup) = (List.map onceItem ∘ Group.items) from rfl,
    ← List.map_map, ← List.map_flatten]
  exact filterNC_map_onceItem _

/-- C1 counterexample: a form whose only item is named `FORM_NAME` makes the
returned mapping send "form_name" to the item's value, not the form's name. -/
theorem C1_counterexample :
    form1c.serialize_as_front_matter = some (form1c2, [("form_name", "X")]) ∧
    form1c.name = "F" ∧
    List.lookup "form_name" ([("form_name", "X")] : List (String × String))
      ≠ some form1c.name := by
  decide

/-- C1 amended: the returned mapping starts from the stored front matter and
is written in order — "form_name" first, then one key per non-submit item —
with later writes overwriting earlier ones.  Hence untouched keys keep their
stored value, "form_name" maps to the form's name provided no non-submit
item's lowercased name is "form_name", and each non-submit item not followed
by another non-submit item with the same lowercased name has its key mapped
to its hook-transformed value; submit items contribute nothing. -/
theorem C1_front_matter_mapping (f f2 : Form) (m : List (String × String))
    (h : f.serialize_as_front_matter = some (f2, m)) :
    (∀ k, k ≠ "form_name" → (∀ it ∈ nonControlItems f, strLower it.name ≠ k) →
      List.lookup k m = List.lookup k f.front_matter) ∧
    ((∀ it ∈ nonControlItems f, strLower it.name ≠ "form_name") →
      List.lookup "form_name" m = some f.name) ∧
    (∀ l1 it l2, nonControlItems f = l1 ++ it :: l2 →
      (∀ it2 ∈ l2, strLower it2.name ≠ strLower it.name) →
      List.lookup (strLower it.name) m = some (applyHooks it.hooks it.value)) := by
  obtain ⟨-, hm⟩ := serialize_fm_some f f2 m h
  refine ⟨?_, ?_, ?_⟩
  · intro k hk hits
    rw [hm, lookup_foldl_hookStep_ne _ _ hits, lookup_fmSet_ne _ _ _ _ hk]
  · intro hits
    rw [hm, lookup_foldl_hookStep_ne _ _ hits, lookup_fmSet_self]
  · intro l1 it l2 hdec hlast
    rw [hm, hdec]
    exact lookup_foldl_hookStep_last l1 it l2 _ hlast

/-- C1 witness: on the concrete form the stored key survives, "form_name"
maps to the form's name, and the hooked item's key maps to its transformed
value. -/
theorem C1_front_matter_mapping_witness :
    List.lookup "extra" m1w = List.lookup "extra" form1w.front_matter ∧
    List.lookup "form_name" m1w = some form1w.name ∧
    List.lookup (strLower item1wS.name) m1w
      = some (applyHooks item1wS.hooks item1wS.value) := by
  have hs : form1w.serialize_as_front_matter = some (form1w2, m1w) := by decide
  have hc := C1_front_matter_mapping form1w form1w2 m1w hs
  refine ⟨?_, ?_, ?_⟩
  · exact hc.1 "extra" (by decide) (by decide)
  · exact hc.2.1 (by decide)
  · exact hc.2.2 [item1wT] item1wS [] (by decide) (by decide)

/-- C5: front-matter serialization is not idempotent: after two calls every
non-submit item's value is its hook sequence applied twice to the original
value, and the second mapping records those doubly-transformed values. -/
theorem C5_serialize_twice (f f1 f2 : Form) (m1 m2 : List (String × String))
    (h1 : f.serialize_as_front_matter = some (f1, m1))
    (h2 : f1.serialize_as_front_matter = some (f2, m2)) :
    f2.groups = f.groups.map (fun g => { g with items := g.items.map (fun it =>
      if CONTROL_TYPES.contains it.html_type then it
      else { it with value := applyHooks it.hooks (applyHooks it.hooks it.value) }) }) ∧
    (∀ l1 it l2, nonControlItems f = l1 ++ it :: l2 →
      (∀ it2 ∈ l2, strLower it2.name ≠ strLower it.name) →
      List.lookup (strLower it.name) m2
        = some (applyHooks it.hooks (applyHooks it.hooks it.value))) := by
  obtain ⟨hf1, hm1⟩ := serialize_fm_some f f1 m1 h1
  obtain ⟨hf2, hm2⟩ := serialize_fm_some f1 f2 m2 h2
  constructor
  · rw [hf2]
    show f1.groups.map onceGroup = _
    rw [hf1]
    show (f.groups.map onceGroup).map onceGroup = _
    rw [List.map_map]
    exact List.map_congr_left (fun g _ => onceGroup_onceGroup g)
  · intro l1 it l2 hdec hlast
    have hmem : it ∈ nonControlItems f := by
      rw [hdec]
      exact List.mem_append_right _ (List.mem_cons_self _ _)
    have hnc : CONTROL_TYPES.contains it.html_type = false := by
      unfold nonControlItems at hmem
      have h3 := (List.mem_filter.mp hmem).2
      cases hb : CONTROL_TYPES.contains it.html_type with
      | false => rfl
      | true => rw [hb] at h3; exact absurd h3 (by decide)
    have hlast2 : ∀ it2 ∈ l2.map onceItem, strLower it2.name ≠ strLower it.name := by
      intro it2 h2m
      rcases List.mem_map.mp h2m with ⟨it3, hit3, rfl⟩
      rw [onceItem_name]
      exact hlast it3 hit3
    rw [hm2, hf1, nonControlItems_mapOnce, hdec, List.map_append, List.map_cons,
      onceItem_noncontrol hnc]
    exact lookup_foldl_hookStep_last (l1.map onceItem)
      { it with value := applyHooks it.hooks it.value } (l2.map onceItem) _ hlast2

/-- C5 witness: serializing the concrete hooked form twice yields the doubly
transformed value both in the item and in the mapping. -/
theorem C5_serialize_twice_witness :
    form5w1.groups = form5w.groups.map (fun g => { g with items := g.items.map (fun it =>
      if CONTROL_TYPES.contains it.html_type then it
      else { it with value := applyHooks it.hooks (applyHooks it.hooks it.value) }) }) ∧
    List.lookup (strLower item5w.name) m5w
      = some (applyHooks item5w.hooks (applyHooks item5w.hooks item5w.value)) := by
  have h1 : form5w.serialize_as_front_matter = some (form5w1, m5w) := by decide
  have h2 : form5w1.serialize_as_front_matter = some (form5w1, m5w) := by decide
  have hc := C5_serialize_twice form5w form5w1 form5w1 m5w m5w h1 h2
  exact ⟨hc.1, hc.2 [] item5w [] (by decide) (by decide)⟩

/-- C10: front-matter serialization skips control items before hook
execution: every item whose html_type is "submit" comes back unchanged, even
when it carries a non-empty hook list. -/
theorem C10_submit_items_untouched (f f2 : Form) (m : List (String × String))
    (h : f.serialize_as_front_matter = some (f2, m)) :
    List.Forall₂ (fun g g2 => g2.name = g.name ∧
      List.Forall₂ (fun it it2 => it.html_type = "submit" → it2 = it)
        g.items g2.items)
      f.groups f2.groups := by
  obtain ⟨hf2, -⟩ := serialize_fm_some f f2 m h
  rw [hf2]
  show List.Forall₂ _ f.groups (f.groups.map onceGroup)
  apply forall2_map_self
  intro g _
  refine ⟨rfl, ?_⟩
  show List.Forall₂ _ g.items (g.items.map onceItem)
  apply forall2_map_self
  intro it _ hctrl
  exact onceItem_control (by rw [hctrl]; rfl)

/-- C10 witness: the concrete submit item with a non-empty hook list is
returned unchanged. -/
theorem C10_submit_items_untouched_witness :
    List.Forall₂ (fun g g2 => g2.name = g.name ∧
      List.Forall₂ (fun it it2 => it.html_type = "submit" → it2 = it)
        g.items g2.items)
      form10w.groups form10w2.groups :=
  C10_submit_items_untouched form10w form10w2 [("form_name", "FX")] (by decide)

end FormBuilder
